import Mathlib

/-!
Verification of the Node-Streaming-VNC-Server native core
(`src/native/vnc_server.cc`) against its natural-language specification.

The embedding works over `Nat`-valued bytes. Multi-byte integers follow
the exact shift/mask arithmetic of the C++ source.
-/

/-- Big-endian 16-bit serialisation, as the C++ writes `(v >> 8) & 0xFF`
then `v & 0xFF`. -/
def beU16 (v : Nat) : List Nat := [v / 256 % 256, v % 256]

/-- Big-endian 32-bit serialisation, as the C++ writes the four shifted
bytes of a `uint32`. -/
def beU32 (v : Nat) : List Nat :=
  [v / 16777216 % 256, v / 65536 % 256, v / 256 % 256, v % 256]

/-- A dirty rectangle (`struct Rect` in `vnc_server.cc`). -/
structure Rect where
  x : Nat
  y : Nat
  w : Nat
  h : Nat
deriving DecidableEq, Repr

/-- The BGRA→RGBA pixel conversion performed by `VncServer::AcquireFrame`
(lines 705–710): `dst[0] = src[2]; dst[1] = src[1]; dst[2] = src[0];
dst[3] = 255`. -/
def acquireConvertPixel (src : List Nat) : List Nat :=
  [src.getD 2 0, src.getD 1 0, src.getD 0 0, 255]

/-- The four bytes committed to `serverFramebuffer` for a pixel whose
colour components are `(r, g, b)`: the capture source delivers the pixel
in BGRA order `[b, g, r, a]` and `AcquireFrame` converts it. -/
def storedPixel (r g b a : Nat) : List Nat := acquireConvertPixel [b, g, r, a]

/-- Reference RFB decoder for the PixelFormat the server advertises in
`ServerInit` (32 bpp, little-endian, true colour, red/green/blue shifts
16/8/0): assemble the little-endian 32-bit value and extract each channel
by its shift. -/
def decodePixelRFB (p : List Nat) : Nat × Nat × Nat :=
  let v := p.getD 0 0 + 256 * p.getD 1 0 + 65536 * p.getD 2 0 + 16777216 * p.getD 3 0
  (v / 65536 % 256, v / 256 % 256, v % 256)

/-- The 12-byte rectangle header emitted by `VncServer::SendFrameUpdate`
(lines 523–536): x, y, w, h as big-endian `uint16` followed by the
4-byte Raw encoding id 0. -/
def rectHeaderBytes (r : Rect) : List Nat :=
  beU16 r.x ++ beU16 r.y ++ beU16 r.w ++ beU16 r.h ++ [0, 0, 0, 0]

/-- One row of raw pixel payload for rectangle `r`: `SendFrameUpdate`
sends `r.w * 4` framebuffer bytes starting at `((r.y + y) * fbW + r.x) * 4`
(lines 540–543). Out-of-range reads yield 0 here; the C++ indexes the
vector unchecked. -/
def rectRowBytes (fb : List Nat) (fbW : Nat) (r : Rect) (y : Nat) : List Nat :=
  (List.range (r.w * 4)).map (fun i => fb.getD (((r.y + y) * fbW + r.x) * 4 + i) 0)

/-- The full byte sequence sent for one rectangle: header then the rows
top to bottom. -/
def rectBytes (fb : List Nat) (fbW : Nat) (r : Rect) : List Nat :=
  rectHeaderBytes r ++ ((List.range r.h).map (rectRowBytes fb fbW r)).flatten

/-- `VncServer::SendFrameUpdate` (lines 503–545): returns without sending
when the rect list is empty; otherwise sends message type 0, padding 0,
the rectangle count as big-endian `uint16`, then each rectangle. -/
def sendFrameUpdate (rects : List Rect) (fb : List Nat) (fbW fbH : Nat) : List Nat :=
  if rects = [] then []
  else [0, 0] ++ beU16 rects.length ++ (rects.map (rectBytes fb fbW)).flatten

/-- C1: claimed wire order is `B, G, R, 0`. The code commits `(R,G,B)` as
`[R, G, B, 255]` and `SendFrameUpdate` emits those bytes verbatim, so for
the committed pixel `(255,0,0)` the rectangle payload is `[255,0,0,255]`,
not `[0,0,255,0]`, and the reference decoder for the advertised
PixelFormat reconstructs `(0,0,255)` — red and blue are swapped. -/
theorem c1_pixel_wire_order_bug :
    sendFrameUpdate [⟨0, 0, 1, 1⟩] (storedPixel 255 0 0 17) 1 1 =
      [0, 0, 0, 1] ++ [0, 0, 0, 0, 0, 1, 0, 1, 0, 0, 0, 0] ++ [255, 0, 0, 255] ∧
    storedPixel 255 0 0 17 ≠ [0, 0, 255, 0] ∧
    decodePixelRFB (storedPixel 255 0 0 17) = (0, 0, 255) ∧
    (0, 0, 255) ≠ (255, 0, 0) := by decide

/-! ## RFB handshake and post-upgrade byte stream (C2, C3) -/

/-- The 12 ASCII bytes of the string the server sends first,
exactly the literal in `HandshakeRFB`: RFB 003.008 followed by newline. -/
def rfbVersionBytes : List Nat :=
  [82, 70, 66, 32, 48, 48, 51, 46, 48, 48, 56, 10]

/-- The desktop name passed to `HandshakeRFB` by `ClientHandler`:
the seven ASCII bytes of NodeVNC. -/
def nameNodeVNC : List Nat := [78, 111, 100, 101, 86, 78, 67]

/-- The `ServerInit` message built by `HandshakeRFB` (lines 466–497):
width and height as big-endian `uint16`; the 16 PixelFormat bytes
(bpp 32, depth 24, big-endian flag 0, true-colour 1, maxima 255,
shifts 16/8/0, three bytes of zero-fill padding); the name length as
big-endian `uint32`; then the name bytes. -/
def serverInitMsg (w h : Nat) (name : List Nat) : List Nat :=
  beU16 w ++ beU16 h ++
    [32, 24, 0, 1, 0, 255, 0, 255, 0, 255, 16, 8, 0, 0, 0, 0] ++
    beU32 name.length ++ name

/-- One socket operation performed by the server: a send of concrete
bytes or a blocking read of a byte count. -/
inductive WireEvent where
  | sendB (bytes : List Nat)
  | recvB (count : Nat)
deriving DecidableEq, Repr

/-- The exact socket-call sequence of `VncServer::HandshakeRFB`
(lines 453–500): send the version string, read 12 bytes of client
version, send the security list bytes 1 1, read a single byte, then
send `ServerInit`. -/
def handshakeRFBTrace (w h : Nat) (name : List Nat) : List WireEvent :=
  [WireEvent.sendB rfbVersionBytes,
   WireEvent.recvB 12,
   WireEvent.sendB [1, 1],
   WireEvent.recvB 1,
   WireEvent.sendB (serverInitMsg w h name)]

/-- The successive `send` payloads of `HandshakeRFB`, i.e. every byte
the server writes to the socket after the WebSocket 101 response. -/
def handshakeRFBSends (w h : Nat) (name : List Nat) : List (List Nat) :=
  [rfbVersionBytes, [1, 1], serverInitMsg w h name]

/-- The concatenated post-upgrade outbound byte stream for the
dimensions and name `ClientHandler` passes (1920, 1080, NodeVNC). -/
def postUpgradeStream : List Nat :=
  (handshakeRFBSends 1920 1080 nameNodeVNC).flatten

/-- Modelled from the spec: an unmasked server-to-client WebSocket
binary frame for a payload of fewer than 126 bytes — the byte 0x82
(FIN plus opcode 2), the payload length byte, then the payload. The
source has no framing routine at all, so this is the spec's framing. -/
def wsBinaryFrame (payload : List Nat) : List Nat :=
  130 :: payload.length :: payload

/-- A byte stream that is a concatenation of server-to-client WebSocket
binary frames. -/
inductive IsWsBinaryFrameStream : List Nat → Prop where
  | nil : IsWsBinaryFrameStream []
  | frame (p rest : List Nat) : IsWsBinaryFrameStream rest →
      IsWsBinaryFrameStream (wsBinaryFrame p ++ rest)

theorem head_of_ws_frame_stream (s : List Nat) (hs : IsWsBinaryFrameStream s)
    (hne : s ≠ []) : s.head? = some 130 := by
  cases hs with
  | nil => exact absurd rfl hne
  | frame p rest h => rfl

/-- C2: claimed that every RFB byte sent after the HTTP upgrade is
wrapped in an unmasked binary WebSocket frame (opcode 2). The code sends
the raw RFB bytes with no framing: the post-upgrade stream begins with
the bare version string (first byte 0x52), so it is not a concatenation
of binary frames. -/
theorem c2_no_ws_framing :
    postUpgradeStream.take 12 = rfbVersionBytes ∧
    ¬ IsWsBinaryFrameStream postUpgradeStream := by
  refine ⟨by decide, fun h => ?_⟩
  have h1 := head_of_ws_frame_stream postUpgradeStream h (by decide)
  have h2 : postUpgradeStream.head? = some 82 := by decide
  rw [h1] at h2
  exact absurd h2 (by decide)

/-- C3: claimed that after sending the security list 01 01 the server
reads the client's chosen security type, sends the 4-byte
SecurityResult 0, reads the ClientInit byte, and only then sends
`ServerInit`. In the code the event right after the single post-security
read is the `ServerInit` send, and no event in the whole handshake sends
the SecurityResult bytes 00 00 00 00. -/
theorem c3_no_security_result :
    WireEvent.sendB [0, 0, 0, 0] ∉ handshakeRFBTrace 1920 1080 nameNodeVNC ∧
    (handshakeRFBTrace 1920 1080 nameNodeVNC).getD 2 (WireEvent.recvB 0) =
      WireEvent.sendB [1, 1] ∧
    (handshakeRFBTrace 1920 1080 nameNodeVNC).getD 3 (WireEvent.recvB 0) =
      WireEvent.recvB 1 ∧
    (handshakeRFBTrace 1920 1080 nameNodeVNC).getD 4 (WireEvent.recvB 0) =
      WireEvent.sendB (serverInitMsg 1920 1080 nameNodeVNC) ∧
    (handshakeRFBTrace 1920 1080 nameNodeVNC).length = 5 ∧
    (serverInitMsg 1920 1080 nameNodeVNC).take 4 = [7, 128, 4, 56] := by decide

/-! ## Framebuffer store, capture commit and session streaming loop (C4, C5) -/

/-- The shared state `ClientHandler` reads under `framebufferMutex`:
`currentDirtyRects` and the generation counter `frameCounter`. -/
structure StoreState where
  rects : List Rect
  gen : Nat
deriving DecidableEq, Repr

/-- The rect substitution at the end of `VncServer::AcquireFrame`
(lines 673–676): when the DXGI metadata produced no dirty rects, a
single full-surface rect is pushed. -/
def acquireRects (W H : Nat) (meta : List Rect) : List Rect :=
  if meta = [] then [⟨0, 0, W, H⟩] else meta

/-- One successful commit of `VncServer::CaptureLoop` (lines 564–577):
store the acquired rects, substitute a full-surface rect if the list is
still empty, and increment the generation counter. -/
def captureCommit (W H : Nat) (meta : List Rect) (s : StoreState) : StoreState :=
  let dirty := acquireRects W H meta
  let cur := if dirty = [] then [Rect.mk 0 0 W H] else dirty
  ⟨cur, s.gen + 1⟩

/-- The per-session streaming variables of `ClientHandler`
(lines 346–347): `lastFrameSeen` and `updateRequested`. -/
structure SessionState where
  lastSeen : Nat
  updateRequested : Bool
deriving DecidableEq, Repr

/-- Initial session state: `lastFrameSeen = 0`,
`updateRequested = true` (line 347). -/
def sessionInit : SessionState := ⟨0, true⟩

/-- The update-emission half of one `ClientHandler` loop iteration
(lines 402–411): when `updateRequested` holds and the store generation
exceeds `lastFrameSeen`, call `SendFrameUpdate` and set
`lastFrameSeen := gen`, `updateRequested := false`; otherwise leave the
session unchanged and send nothing. Returns the new session state and
the bytes sent. -/
def emissionStep (store : StoreState) (fb : List Nat) (W H : Nat)
    (sess : SessionState) : SessionState × List Nat :=
  if sess.updateRequested = true ∧ sess.lastSeen < store.gen then
    (⟨store.gen, false⟩, sendFrameUpdate store.rects fb W H)
  else (sess, [])

theorem sendFrameUpdate_ne_nil (rects : List Rect) (fb : List Nat) (W H : Nat)
    (hr : rects ≠ []) : sendFrameUpdate rects fb W H ≠ [] := by
  simp [sendFrameUpdate, hr]

/-! ## Inbound message demultiplexing (C4, C6, C7) -/

/-- A call into the input sink (`VncServer::SendInput`). -/
inductive SinkCall where
  | pointer (x y button : Nat)
  | key (k : Nat)
deriving DecidableEq, Repr

/-- The outcome of handling one inbound RFB message in `ClientHandler`. -/
structure MsgResult where
  drained : Nat
  closed : Bool
  setUpdateRequested : Bool
  sinkCalls : List SinkCall
deriving DecidableEq, Repr

/-- The message demultiplexer of `ClientHandler` (lines 361–399), given
the type byte and the bytes available after it. Type 0 drains 19 bytes;
type 2 drains 3 header bytes plus 4 per announced encoding; type 3
drains 9 bytes and sets `updateRequested`; types 4 and 5 drain their
bodies and do nothing else (the parse-and-forward is an unimplemented
TODO); any other type falls to the default arm, which drains up to 1024
buffered bytes and continues — no arm closes the session. -/
def handleMessage (msgType : Nat) (body : List Nat) : MsgResult :=
  if msgType = 0 then ⟨19, false, false, []⟩
  else if msgType = 2 then
    ⟨3 + (body.getD 1 0 * 256 + body.getD 2 0) * 4, false, false, []⟩
  else if msgType = 3 then ⟨9, false, true, []⟩
  else if msgType = 4 then ⟨7, false, false, []⟩
  else if msgType = 5 then ⟨5, false, false, []⟩
  else ⟨min body.length 1024, false, false, []⟩

/-- Modelled from the spec: the decode the spec requires for a
PointerEvent body — `button_mask` is the first body byte, `x` and `y`
are big-endian `uint16`s — forwarded as one `post_pointer` call. -/
def specDecodePointer (body : List Nat) : SinkCall :=
  SinkCall.pointer (body.getD 1 0 * 256 + body.getD 2 0)
    (body.getD 3 0 * 256 + body.getD 4 0) (body.getD 0 0)

/-- C4 counterexample: when the first acquired frame carries nonempty
dirty metadata — here the single rect (10,10,5,5) — the first commit
sets the generation to 1 and the first emitted update carries that rect,
not the full-surface rect (0,0,1920,1080): the rect header after the
4-byte update header encodes (10,10,5,5). -/
theorem c4_first_update_counterexample :
    (captureCommit 1920 1080 [⟨10, 10, 5, 5⟩] ⟨[], 0⟩).gen = 1 ∧
    (captureCommit 1920 1080 [⟨10, 10, 5, 5⟩] ⟨[], 0⟩).rects ≠ [⟨0, 0, 1920, 1080⟩] ∧
    (emissionStep (captureCommit 1920 1080 [⟨10, 10, 5, 5⟩] ⟨[], 0⟩)
        [] 1920 1080 sessionInit).2 ≠ [] ∧
    ((emissionStep (captureCommit 1920 1080 [⟨10, 10, 5, 5⟩] ⟨[], 0⟩)
        [] 1920 1080 sessionInit).2.drop 4).take 12 =
      rectHeaderBytes ⟨10, 10, 5, 5⟩ ∧
    rectHeaderBytes ⟨10, 10, 5, 5⟩ ≠ rectHeaderBytes ⟨0, 0, 1920, 1080⟩ := by
  decide

/-- C4 (amended): while the store generation is 0 no update is emitted;
a FramebufferUpdateRequest only sets `update_requested`, so a request
arriving at generation 0 is held pending; the first commit sets the
generation to 1; and the first update's rect set is the full-surface
rect exactly when the first acquire reported no dirty metadata,
otherwise the reported metadata rects. -/
theorem c4_first_frame_amended (W H : Nat) (meta : List Rect) (fb : List Nat)
    (sess : SessionState) (store : StoreState) (h0 : store.gen = 0) :
    (emissionStep store fb W H sess).2 = [] ∧
    (handleMessage 3 (List.replicate 9 0)).setUpdateRequested = true ∧
    (captureCommit W H meta ⟨[], 0⟩).gen = 1 ∧
    (captureCommit W H meta ⟨[], 0⟩).rects =
      (if meta = [] then [⟨0, 0, W, H⟩] else meta) := by
  refine ⟨?_, by decide, rfl, ?_⟩
  · simp [emissionStep, h0]
  · by_cases hm : meta = [] <;> simp [captureCommit, acquireRects, hm]

/-- Witness for `c4_first_frame_amended` at the store state fresh after
the RFB handshake and a first acquire with empty metadata. -/
theorem c4_first_frame_amended_witness :
    (emissionStep ⟨[], 0⟩ [] 1920 1080 sessionInit).2 = [] ∧
    (handleMessage 3 (List.replicate 9 0)).setUpdateRequested = true ∧
    (captureCommit 1920 1080 [] ⟨[], 0⟩).gen = 1 ∧
    (captureCommit 1920 1080 [] ⟨[], 0⟩).rects =
      (if ([] : List Rect) = [] then [⟨0, 0, 1920, 1080⟩] else []) :=
  c4_first_frame_amended 1920 1080 [] [] sessionInit ⟨[], 0⟩ rfl

/-- C5: provided the store's rect list is nonempty (which every
`captureCommit` guarantees), one pass of the emission step sends a
`FramebufferUpdate` exactly when `update_requested` holds and the store
generation exceeds `last_seen_generation`, and in that case the session
afterwards holds `last_seen_generation = gen` and
`update_requested = false`. -/
theorem c5_emission_condition (store : StoreState) (fb : List Nat) (W H : Nat)
    (sess : SessionState) (hr : store.rects ≠ []) :
    ((emissionStep store fb W H sess).2 ≠ [] ↔
      (sess.updateRequested = true ∧ sess.lastSeen < store.gen)) ∧
    (sess.updateRequested = true → sess.lastSeen < store.gen →
      (emissionStep store fb W H sess).1 = ⟨store.gen, false⟩) := by
  by_cases hc : sess.updateRequested = true ∧ sess.lastSeen < store.gen
  · refine ⟨⟨fun _ => hc, fun _ => ?_⟩, fun _ _ => ?_⟩ <;>
      simp [emissionStep, hc]
    exact sendFrameUpdate_ne_nil store.rects fb W H hr
  · constructor
    · simp [emissionStep, hc]
    · intro h1 h2
      exact absurd ⟨h1, h2⟩ hc

/-- Witness for `c5_emission_condition`: a store at generation 1 with
one rect and a fresh session emits, and the session state afterwards is
(1, false). -/
theorem c5_emission_condition_witness :
    (emissionStep ⟨[⟨0, 0, 4, 4⟩], 1⟩ [] 4 4 ⟨0, true⟩).1 =
      (⟨1, false⟩ : SessionState) :=
  (c5_emission_condition ⟨[⟨0, 0, 4, 4⟩], 1⟩ [] 4 4 ⟨0, true⟩
    (by decide)).2 rfl (by decide)

/-- C6: claimed the session decodes a PointerEvent and forwards it to
the input sink. On the inbound message 05 02 01 2C 00 C8 the code only
drains the 5 body bytes: it makes no sink call at all, in particular not
the `post_pointer(300, 200, 2)` call the spec requires (the handler's
`SendInput` wiring is an unimplemented TODO). -/
theorem c6_pointer_event_not_forwarded :
    (handleMessage 5 [2, 1, 44, 0, 200]).drained = 5 ∧
    (handleMessage 5 [2, 1, 44, 0, 200]).closed = false ∧
    (handleMessage 5 [2, 1, 44, 0, 200]).sinkCalls = [] ∧
    specDecodePointer [2, 1, 44, 0, 200] = SinkCall.pointer 300 200 2 ∧
    (handleMessage 5 [2, 1, 44, 0, 200]).sinkCalls ≠
      [specDecodePointer [2, 1, 44, 0, 200]] := by decide

/-- C7 counterexample: on an unknown message type — here 7 with 1500
buffered bytes — the session is not closed; the default arm drains up to
1024 bytes and the loop continues. -/
theorem c7_unknown_message_counterexample :
    (handleMessage 7 (List.replicate 1500 3)).closed = false ∧
    (handleMessage 7 (List.replicate 1500 3)).drained = 1024 := by
  refine ⟨rfl, ?_⟩
  show min (List.replicate 1500 (3 : Nat)).length 1024 = 1024
  rw [List.length_replicate 1500 3]
  omega

/-- C7 (amended): a message type byte outside {0,2,3,4,5} — type 6
included, since the code has no ClientCutText arm — reaches the default
arm, which drains at most 1024 of the buffered bytes and continues: the
session is not closed, no sink call is made and no update is
requested. -/
theorem c7_unknown_message_amended (t : Nat) (body : List Nat)
    (h : t ≠ 0 ∧ t ≠ 2 ∧ t ≠ 3 ∧ t ≠ 4 ∧ t ≠ 5) :
    (handleMessage t body).closed = false ∧
    (handleMessage t body).drained = min body.length 1024 ∧
    (handleMessage t body).sinkCalls = [] ∧
    (handleMessage t body).setUpdateRequested = false := by
  obtain ⟨h0, h2, h3, h4, h5⟩ := h
  simp [handleMessage, h0, h2, h3, h4, h5]

/-- Witness for `c7_unknown_message_amended` at type 6 (ClientCutText)
with a 40-byte buffer. -/
theorem c7_unknown_message_amended_witness :
    (handleMessage 6 (List.replicate 40 9)).closed = false ∧
    (handleMessage 6 (List.replicate 40 9)).drained =
      min (List.replicate 40 9).length 1024 ∧
    (handleMessage 6 (List.replicate 40 9)).sinkCalls = [] ∧
    (handleMessage 6 (List.replicate 40 9)).setUpdateRequested = false :=
  c7_unknown_message_amended 6 (List.replicate 40 9)
    ⟨by decide, by decide, by decide, by decide, by decide⟩

/-! ## Input-sink coordinate mapping (C8) -/

/-- The x scaling in `VncServer::SendInput` (line 723):
`input.mi.dx = x * (65535 / this->width)` — the C++ parenthesisation
performs the truncating integer division first. -/
def sendInputDx (x width : Nat) : Nat := x * (65535 / width)

/-- The y scaling in `VncServer::SendInput` (line 724):
`input.mi.dy = y * (65535 / this->height)`. -/
def sendInputDy (y height : Nat) : Nat := y * (65535 / height)

/-- Modelled from the spec: the normalised x mapping
`x_os = x * 65535 / width` with the multiplication performed before the
division, over exact integers. -/
def specPointerMapX (x width : Nat) : Nat := x * 65535 / width

/-- Modelled from the spec: the normalised y mapping
`y_os = y * 65535 / height`. -/
def specPointerMapY (y height : Nat) : Nat := y * 65535 / height

/-- C8 counterexample: at x = 1919 on a 1920-pixel-wide framebuffer the
code computes 1919 * (65535 / 1920) = 1919 * 34 = 65246, while the
claimed multiply-first mapping gives 1919 * 65535 / 1920 = 65500. -/
theorem c8_pointer_scaling_counterexample :
    sendInputDx 1919 1920 = 65246 ∧
    specPointerMapX 1919 1920 = 65500 ∧
    sendInputDx 1919 1920 ≠ specPointerMapX 1919 1920 := by decide

theorem sendInputDx_le_spec (x w : Nat) (hw : 0 < w) :
    sendInputDx x w ≤ specPointerMapX x w := by
  unfold sendInputDx specPointerMapX
  refine (Nat.le_div_iff_mul_le hw).mpr ?_
  rw [Nat.mul_assoc]
  exact Nat.mul_le_mul_left x (Nat.div_mul_le_self 65535 w)

/-- C8 (amended): the input sink computes
`x_os = x * (65535 / width)` with the truncating division performed
before the multiplication (symmetrically for y). This never exceeds the
spec's multiply-first value, and coincides with it exactly when the
width divides 65535. -/
theorem c8_pointer_scaling_amended (x y w h : Nat) (hw : 0 < w) (hh : 0 < h) :
    sendInputDx x w ≤ specPointerMapX x w ∧
    sendInputDy y h ≤ specPointerMapY y h ∧
    (65535 % w = 0 → sendInputDx x w = specPointerMapX x w) ∧
    (65535 % h = 0 → sendInputDy y h = specPointerMapY y h) := by
  refine ⟨sendInputDx_le_spec x w hw, sendInputDx_le_spec y h hh, ?_, ?_⟩ <;>
    intro hmod <;>
    exact (Nat.mul_div_assoc _ (Nat.dvd_of_mod_eq_zero hmod)).symm

/-- Witness for `c8_pointer_scaling_amended` on a hypothetical
257-pixel-wide and 4369-pixel-high surface (both divide 65535), at
pointer position (256, 4368). -/
theorem c8_pointer_scaling_amended_witness :
    sendInputDx 256 257 ≤ specPointerMapX 256 257 ∧
    sendInputDy 4368 4369 ≤ specPointerMapY 4368 4369 ∧
    (65535 % 257 = 0 → sendInputDx 256 257 = specPointerMapX 256 257) ∧
    (65535 % 4369 = 0 → sendInputDy 4368 4369 = specPointerMapY 4368 4369) :=
  c8_pointer_scaling_amended 256 4368 257 4369 (by decide) (by decide)

/-! ## Active-client accounting (C9) -/

/-- The positions a session worker can be at inside
`VncServer::ClientHandler`: just entered (after the `activeClients++` at
line 315, before the WebSocket handshake result), WebSocket handshake
done (before the RFB handshake result), streaming (RFB handshake
completed), or exited (after the decrement on any of the three exit
paths, lines 320, 333 and 417). -/
inductive SessionPhase where
  | entered
  | wsDone
  | streaming
  | exited
deriving DecidableEq, Repr

/-- Net contribution of a session worker to `activeClients`: the code
increments at handler entry and decrements on every exit path, so every
phase before `exited` contributes 1. -/
def activeDelta : SessionPhase → Nat
  | .exited => 0
  | _ => 1

/-- Contribution to the count the claim describes: sessions that have
completed the RFB handshake and have not yet exited. -/
def rfbCompletedActive : SessionPhase → Nat
  | .streaming => 1
  | _ => 0

/-- Whether a session worker has entered the handler and not yet
exited. -/
def isLive : SessionPhase → Bool
  | .exited => false
  | _ => true

/-- The value of the `activeClients` counter given the phases of all
session workers ever spawned. -/
def activeClientsCount (ws : List SessionPhase) : Nat :=
  (ws.map activeDelta).sum

/-- The number of session workers that have completed the RFB handshake
and have not yet exited. -/
def rfbCompletedCount (ws : List SessionPhase) : Nat :=
  (ws.map rfbCompletedActive).sum

/-- C9 counterexample: a single session worker that has entered the
handler but not yet completed (or failed) the WebSocket handshake
already makes `activeClients` equal 1, while the number of
RFB-handshake-completed live workers is 0. -/
theorem c9_active_clients_counterexample :
    activeClientsCount [SessionPhase.entered] = 1 ∧
    rfbCompletedCount [SessionPhase.entered] = 0 ∧ (1 : Nat) ≠ 0 := by decide

/-- C9 (amended): `activeClients` equals the number of session workers
that have entered the handler and not yet exited — the increment happens
before the WebSocket handshake, so workers still negotiating (or about
to fail) a handshake do contribute; the count of RFB-completed live
workers is only a lower bound. -/
theorem c9_active_clients_amended (ws : List SessionPhase) :
    activeClientsCount ws = (ws.filter isLive).length ∧
    rfbCompletedCount ws ≤ activeClientsCount ws := by
  induction ws with
  | nil => exact ⟨rfl, Nat.le_refl 0⟩
  | cons p rest ih =>
    obtain ⟨ih1, ih2⟩ := ih
    refine ⟨?_, ?_⟩
    · cases p <;>
        simp [activeClientsCount, List.filter, activeDelta, isLive] at ih1 ⊢ <;>
        omega
    · cases p <;>
        simp [activeClientsCount, rfbCompletedCount, activeDelta,
          rfbCompletedActive] at ih1 ih2 ⊢ <;>
        omega

/-! ## Constructor defaults (C10) -/

/-- The options object passed to the `VncServer` constructor, with the
two fields the constructor inspects; `none` models an absent field. -/
structure VncOptions where
  port : Option Int
  password : Option String

/-- The constructor-initialised server state
(`VncServer::VncServer`, lines 201–222). -/
structure ServerCtorState where
  port : Int
  password : String
  running : Bool
  captureRunning : Bool
  activeClients : Nat
  framebufferSize : Nat

/-- `VncServer::VncServer` (lines 209–221): port defaults to 5900 when
absent, password to the empty string; `running` and `captureRunning`
start false, `activeClients` starts 0, and the framebuffer is
pre-allocated to 1920 * 1080 * 4 bytes. -/
def vncServerConstruct (opts : VncOptions) : ServerCtorState :=
  { port := opts.port.getD 5900
    password := opts.password.getD ""
    running := false
    captureRunning := false
    activeClients := 0
    framebufferSize := 1920 * 1080 * 4 }

/-- C10: omitting `port` yields 5900 and omitting `password` yields the
empty string, and every other constructor-initialised component is the
same whichever optional fields are present. -/
theorem c10_constructor_defaults (opts other : VncOptions) :
    (opts.port = none → (vncServerConstruct opts).port = 5900) ∧
    (opts.password = none → (vncServerConstruct opts).password = "") ∧
    (vncServerConstruct opts).running = false ∧
    (vncServerConstruct opts).captureRunning = false ∧
    (vncServerConstruct opts).activeClients = 0 ∧
    (vncServerConstruct opts).framebufferSize = 1920 * 1080 * 4 ∧
    (vncServerConstruct opts).running = (vncServerConstruct other).running ∧
    (vncServerConstruct opts).captureRunning =
      (vncServerConstruct other).captureRunning ∧
    (vncServerConstruct opts).activeClients =
      (vncServerConstruct other).activeClients ∧
    (vncServerConstruct opts).framebufferSize =
      (vncServerConstruct other).framebufferSize := by
  refine ⟨fun hp => ?_, fun hp => ?_, rfl, rfl, rfl, rfl, rfl, rfl, rfl, rfl⟩ <;>
    simp [vncServerConstruct, hp]

/-- Witness for `c10_constructor_defaults`: an options object with both
fields absent against one with both present. -/
theorem c10_constructor_defaults_witness :
    (vncServerConstruct ⟨none, none⟩).port = 5900 ∧
    (vncServerConstruct ⟨none, none⟩).password = "" ∧
    (vncServerConstruct ⟨none, none⟩).running = false ∧
    (vncServerConstruct ⟨none, none⟩).framebufferSize = 1920 * 1080 * 4 := by
  have h := c10_constructor_defaults ⟨none, none⟩ ⟨some 5902, some "password"⟩
  exact ⟨h.1 rfl, h.2.1 rfl, h.2.2.1, h.2.2.2.2.2.1⟩
